import Mathlib

/-!
Verification of `src/python_processing/splitter_14_improved.py`
(page2tei-export-splitter).

The script extracts a page range from a TEI-XML export: it selects
`surface`, `table` and `ab` elements whose facsimile identifiers match a
numeric page range, reassembles them under a fresh TEI root with one
page-break (`pb`) element per page, writes an intermediate file, applies
an XSLT transform, post-processes the serialized bytes with a textual
line-break fixup, writes the final file and deletes the intermediate one.

Modelling conventions:
* Byte strings are `List Nat` (byte values); Python's
  `bytes.replace(pat, repl)` for the two concrete patterns used by
  `clean_transformed_xml` is embedded as a structurally recursive scan
  (leftmost match, non-overlapping, the scan resumes after the
  replacement), which is exactly CPython's semantics for a non-empty
  pattern.
* The parsed XML tree is abstracted to the list of its element nodes in
  document order (`List Node`); `findall`/`xpath` queries become list
  filters, which preserves document order exactly as lxml does.  The two
  per-page queries of the main loop (tables by exact `facs` match, `ab`
  blocks by `facs` substring match) are modelled on the original node
  list: the nodes the loop has already moved out of the tree are
  `surface` nodes and content of earlier, strictly smaller page numbers,
  which the exact-match table query of a later page can never hit, so
  the per-page selection is faithful.
* The observable behaviour of the `__main__` block (prints, warnings,
  file writes, file removal, uncaught exceptions) is embedded as an
  event trace (`mainRun`); the outcomes of the external world (read
  failure of the input, pre-existing files, XSLT failure, `os.remove`
  failure) are supplied by an environment record `Env`.  File writes
  themselves are assumed to succeed, as in every claim under study.
* The hard-coded configuration values of the script (input path, year,
  page range `range(start, stop)`, stylesheet path) are the fields of
  `Config`; spec §6 lists them as the script's configuration parameters.
  Page numbers are natural numbers.
-/

namespace PageSplitter

/-! ## Byte-level post-processing (`clean_transformed_xml`, source lines 84-91)

Byte constants: 10 = LF, 32 = space, 60 = `<`, 62 = `>`, 98 = `b`,
108 = `l`.  The source performs
`s.replace(b'>\nlb-open ', b'>\nlb-open ').replace(b'\nlb-open', b'lb-open')`
where `lb-open` stands for the two bytes `<lb`. -/

/-- Embedding of the second replace call, `s.replace(b'\n<lb', b'<lb')`:
leftmost-first, non-overlapping replacement of the byte pattern
`\n<lb` (10, 60, 108, 98) by `<lb` (60, 108, 98), resuming after the
replacement, as CPython does for a non-empty pattern. -/
def replaceNLlb : List Nat → List Nat
  | 10 :: 60 :: 108 :: 98 :: rest => 60 :: 108 :: 98 :: replaceNLlb rest
  | a :: rest => a :: replaceNLlb rest
  | [] => []

/-- Embedding of the first replace call, `s.replace(b'>\n<lb ', b'>\n<lb ')`:
the replacement (62, 10, 60, 108, 98, 32) equals the pattern. -/
def replaceGtNLlb : List Nat → List Nat
  | 62 :: 10 :: 60 :: 108 :: 98 :: 32 :: rest => 62 :: 10 :: 60 :: 108 :: 98 :: 32 :: replaceGtNLlb rest
  | a :: rest => a :: replaceGtNLlb rest
  | [] => []

/-- The textual fixup of `clean_transformed_xml` applied to the
serialized byte stream: both `replace` calls, in source order. -/
def clean_transformed_xml (s : List Nat) : List Nat :=
  replaceNLlb (replaceGtNLlb s)

/-! ## Document model and range-based selection (source lines 55-67, 104-151) -/

/-- An element node of the source tree, reduced to the attributes the
script queries: its tag, its `facs` attribute (empty string when
absent) and its `xml:id` attribute (empty string when absent). -/
structure Node where
  tag : String
  facs : String
  xmlId : String
deriving DecidableEq

/-- Substring test on character lists: does the second list contain the
first as a contiguous subsequence?  Executable counterpart of XPath
`contains`. -/
def listContainsSeq (pat : List Char) : List Char → Bool
  | [] => pat.isEmpty
  | a :: t => pat.isPrefixOf (a :: t) || listContainsSeq pat t

/-- XPath `contains(s, pat)`: `pat` occurs as a substring of `s`. -/
def strContains (s pat : String) : Bool :=
  listContainsSeq pat.data s.data

/-- `root.findall(f".//tei:table[@facs='#facs_{facs_start}_t1']", namespaces)`
(source line 141): all `table` nodes whose `facs` attribute equals
`#facs_<n>_t1`, in document order. -/
def current_table_elements (root : List Node) (n : Nat) : List Node :=
  root.filter (fun nd => nd.tag == "table" && nd.facs == s!"#facs_{n}_t1")

/-- `root.xpath(f".//tei:ab[contains(@facs, '#facs_{facs_start}_')]", ...)`
(source line 149): all `ab` nodes whose `facs` attribute contains the
substring `#facs_<n>_`, in document order. -/
def text_elements (root : List Node) (n : Nat) : List Node :=
  root.filter (fun nd => nd.tag == "ab" && strContains nd.facs s!"#facs_{n}_")

/-- A child of the assembled `text/body/div`: either a page-break
element with its three attributes, or a content node moved from the
source tree. -/
inductive DivItem where
  | pb (facs n xmlId : String)
  | content (nd : Node)
deriving DecidableEq

/-- The `pb` element created at source lines 137-138:
`etree.SubElement(div, 'pb', facs=f"#facs_{facs_start}", n=str(facs_start),
xml:id=f"img_00{facs_start}")`. -/
def pbFor (n : Nat) : DivItem :=
  DivItem.pb s!"#facs_{n}" (toString n) s!"img_00{n}"

/-- The children the loop body (source lines 136-151) appends to `div`
for one page: the page-break, then either all matching tables (when at
least one exists) or else all matching `ab` blocks. -/
def divPageItems (root : List Node) (n : Nat) : List DivItem :=
  if current_table_elements root n ≠ [] then
    pbFor n :: (current_table_elements root n).map DivItem.content
  else
    pbFor n :: (text_elements root n).map DivItem.content

/-- The full child list of the assembled `div`: the loop
`for facs_start in facs_start_range` over `range(start, stop)`. -/
def buildDiv (root : List Node) (start stop : Nat) : List DivItem :=
  (List.range' start (stop - start)).flatMap (divPageItems root)

/-- `extract_surface_elements` (source lines 55-60): for each page of
the range, all `surface` nodes whose `xml:id` equals `facs_<n>`. -/
def extract_surface_elements (root : List Node) (start stop : Nat) : List Node :=
  (List.range' start (stop - start)).flatMap
    (fun n => root.filter (fun nd => nd.tag == "surface" && nd.xmlId == s!"facs_{n}"))

/-- Recognizer for page-break children of the div. -/
def isPb : DivItem → Bool
  | .pb _ _ _ => true
  | .content _ => false

/-- The three attributes of a page-break child, `none` on content. -/
def pbData : DivItem → Option (String × String × String)
  | .pb f n x => some (f, n, x)
  | .content _ => none

/-! ## Output file naming (source lines 158-159 and 172-175) -/

/-- `range_str` (source line 158):
`f"{start}-{stop - 1}"` when the range has more than one page, else
`f"{start}"`. -/
def range_str (start stop : Nat) : String :=
  if stop - start > 1 then s!"{start}-{stop - 1}" else s!"{start}"

/-- `output_file_path` (source line 159):
`f'output/{year_of_volume}_{range_str}_before.xml'`. -/
def intermediatePath (year : String) (start stop : Nat) : String :=
  s!"output/{year}_{range_str start stop}_before.xml"

/-- Python's `f"{n:03d}"` for a natural number: the decimal digits,
left-padded with zeros to width three. -/
def pad3 (n : Nat) : String :=
  String.mk (List.replicate (3 - (toString n).length) '0') ++ toString n

/-- `formatted_range_str` (source line 172): like `range_str` with both
bounds zero-padded to three digits. -/
def formatted_range_str (start stop : Nat) : String :=
  if stop - start > 1 then s!"{pad3 start}-{pad3 (stop - 1)}" else pad3 start

/-- `transformed_output_path` (source line 175):
`f'output/{year_of_volume}_{formatted_range_str}.xml'`. -/
def finalPath (year : String) (start stop : Nat) : String :=
  s!"output/{year}_{formatted_range_str start stop}.xml"

/-! ## Pipeline control flow and observable events (source lines 4-11, 94-184) -/

/-- Outcome of `etree.parse(file_path)` on the input document, supplied
by the environment: success with a root, an `IOError` (the file cannot
be read), or an `XMLSyntaxError` (the file is read but not well-formed
XML). -/
inductive ParseResult where
  | ok (root : List Node)
  | ioError (msg : String)
  | parseError (msg : String)
deriving DecidableEq

/-- Python exceptions that can escape the script uncaught. -/
inductive PyExn where
  | oserror (msg : String)
  | xmlSyntaxError (msg : String)
  | xsltError (msg : String)
deriving DecidableEq

/-- Observable actions of one run, in order: the error print of
`parse_xml` (line 10), the overwrite warning of `save_xml_to_file`
(line 72), a file write (lines 74-75 and 178-179), the two success
prints (lines 76 and 181), and the removal of the intermediate file
(line 184). -/
inductive Event where
  | printError (path msg : String)
  | warnOverwrite (path : String)
  | writeFile (path : String)
  | printSaved (path : String)
  | printTransformed (path : String)
  | removeFile (path : String)
deriving DecidableEq

/-- `parse_xml` (source lines 4-11): `try: return etree.parse(...).getroot()
except IOError as e: print(...); return None`.  Only `IOError` is
caught; an `XMLSyntaxError` propagates as an uncaught exception, which
the `Except` error component records.  The first component is the list
of prints performed. -/
def parse_xml (pr : ParseResult) (file_path : String) :
    List Event × Except PyExn (Option (List Node)) :=
  match pr with
  | .ok root => ([], .ok (some root))
  | .ioError msg => ([Event.printError file_path msg], .ok none)
  | .parseError msg => ([], .error (.xmlSyntaxError msg))

/-- The script's configuration values (source lines 96, 111, 116, 165),
hard-coded in the script and listed by the spec as configuration
parameters: input path, volume year, the page range bounds of
`range(start, stop)`, and the stylesheet path. -/
structure Config where
  file_path : String
  year_of_volume : String
  start : Nat
  stop : Nat
  xslt_path : String

/-- The external world of one run: the outcome of parsing the input,
which paths already exist on disk when checked, whether loading or
applying the stylesheet raises, and whether `os.remove` raises. -/
structure Env where
  parseResult : ParseResult
  fileExists : String → Bool
  xsltRaises : Option String
  removeRaises : Option String

/-- Result of a run: the events that happened, in order, and the
uncaught exception that terminated the run, if any. -/
structure RunResult where
  events : List Event
  uncaught : Option PyExn
deriving DecidableEq

/-- The `__main__` block (source lines 94-184) as a trace function.
`exit()` on a `None` root ends the run normally after the error print;
`save_xml_to_file` warns if the intermediate path exists, then writes
and prints; a stylesheet failure escapes after the intermediate write;
the final write (no existence check, no warning) is followed by its
print and by `os.remove(output_file_path)`, which has no handler, so
its failure escapes uncaught. -/
def mainRun (cfg : Config) (env : Env) : RunResult :=
  match parse_xml env.parseResult cfg.file_path with
  | (ev, .error e) => ⟨ev, some e⟩
  | (ev, .ok none) => ⟨ev, none⟩
  | (ev, .ok (some _root)) =>
    let ip := intermediatePath cfg.year_of_volume cfg.start cfg.stop
    let fp := finalPath cfg.year_of_volume cfg.start cfg.stop
    let evSave := ev ++ (if env.fileExists ip then [Event.warnOverwrite ip] else [])
        ++ [Event.writeFile ip, Event.printSaved ip]
    match env.xsltRaises with
    | some m => ⟨evSave, some (.xsltError m)⟩
    | none =>
      let evFinal := evSave ++ [Event.writeFile fp, Event.printTransformed fp]
      match env.removeRaises with
      | some m => ⟨evFinal, some (.oserror m)⟩
      | none => ⟨evFinal ++ [Event.removeFile ip], none⟩

/-! ## Helper lemmas -/

/-- Replacing a pattern by itself changes nothing: the first `replace`
call of `clean_transformed_xml` is the identity. -/
theorem replaceGtNLlb_id : ∀ s : List Nat, replaceGtNLlb s = s := by
  intro s
  induction s using replaceGtNLlb.induct with
  | case1 rest ih => rw [replaceGtNLlb.eq_1, ih]
  | case2 a rest h ih => rw [replaceGtNLlb.eq_2 a rest h, ih]
  | case3 => rfl

/-- The whole fixup reduces to the second `replace` call. -/
theorem clean_eq_replaceNLlb (s : List Nat) :
    clean_transformed_xml s = replaceNLlb s := by
  rw [clean_transformed_xml, replaceGtNLlb_id]

theorem infixCons {p l : List Nat} {a : Nat} (h : p <:+: (a :: l)) :
    p <+: (a :: l) ∨ p <:+: l := by
  obtain ⟨u, v, huv⟩ := h
  cases u with
  | nil => exact Or.inl ⟨v, by simpa using huv⟩
  | cons b u' =>
    right
    simp only [List.cons_append, List.cons.injEq] at huv
    exact ⟨u', v, huv.2⟩

theorem infixExt {p l : List Nat} (a : Nat) (h : p <:+: l) : p <:+: (a :: l) := by
  obtain ⟨u, v, huv⟩ := h
  exact ⟨a :: u, v, by simp [huv]⟩

/-- If the output of `replaceNLlb` starts with byte `b`, so did its input. -/
theorem span1 : ∀ r : List Nat, [98] <+: replaceNLlb r → [98] <+: r := by
  intro r
  induction r using replaceNLlb.induct with
  | case1 rest ih =>
    rw [replaceNLlb.eq_1]
    rintro ⟨t, ht⟩
    simp at ht
  | case2 a rest h ih =>
    rw [replaceNLlb.eq_2 a rest h]
    rintro ⟨t, ht⟩
    simp only [List.cons_append, List.nil_append, List.cons.injEq] at ht
    exact ⟨rest, by rw [ht.1]; simp⟩
  | case3 =>
    rintro ⟨t, ht⟩
    simp [replaceNLlb] at ht

/-- If the output of `replaceNLlb` starts with `lb`, so did its input. -/
theorem span2 : ∀ r : List Nat, [108, 98] <+: replaceNLlb r → [108, 98] <+: r := by
  intro r
  induction r using replaceNLlb.induct with
  | case1 rest ih =>
    rw [replaceNLlb.eq_1]
    rintro ⟨t, ht⟩
    simp at ht
  | case2 a rest h ih =>
    rw [replaceNLlb.eq_2 a rest h]
    rintro ⟨t, ht⟩
    simp only [List.cons_append, List.nil_append, List.cons.injEq] at ht
    obtain ⟨ha, hrest⟩ := ht
    have h98 : [98] <+: rest := span1 rest ⟨t, by simp [← hrest]⟩
    obtain ⟨t2, ht2⟩ := h98
    exact ⟨t2, by rw [ha]; simp [← ht2]⟩
  | case3 =>
    rintro ⟨t, ht⟩
    simp [replaceNLlb] at ht

/-- If the output of `replaceNLlb` starts with the three bytes of
`<lb`, the input started with them too, or started with the four bytes
of `\n<lb` (a match that was just flattened). -/
theorem span3 : ∀ r : List Nat, [60, 108, 98] <+: replaceNLlb r →
    [60, 108, 98] <+: r ∨ [10, 60, 108, 98] <+: r := by
  intro r
  induction r using replaceNLlb.induct with
  | case1 rest ih =>
    intro _
    exact Or.inr ⟨rest, rfl⟩
  | case2 a rest h ih =>
    rw [replaceNLlb.eq_2 a rest h]
    rintro ⟨t, ht⟩
    simp only [List.cons_append, List.nil_append, List.cons.injEq] at ht
    obtain ⟨ha, hrest⟩ := ht
    have h2 : [108, 98] <+: rest := span2 rest ⟨t, by simp [← hrest]⟩
    obtain ⟨t2, ht2⟩ := h2
    exact Or.inl ⟨t2, by rw [ha]; simp [← ht2]⟩
  | case3 =>
    rintro ⟨t, ht⟩
    simp [replaceNLlb] at ht

/-- Unless the input contains the five bytes of `\n\n<lb`, one pass of
`replaceNLlb` leaves no occurrence of `\n<lb` behind. -/
theorem noNLNL_noNL : ∀ s : List Nat, ¬ ([10, 10, 60, 108, 98] <:+: s) →
    ¬ ([10, 60, 108, 98] <:+: replaceNLlb s) := by
  intro s
  induction s using replaceNLlb.induct with
  | case1 rest ih =>
    intro hno hinf
    rw [replaceNLlb.eq_1] at hinf
    have hrest_no : ¬ ([10, 10, 60, 108, 98] <:+: rest) := fun hr =>
      hno (infixExt 10 (infixExt 60 (infixExt 108 (infixExt 98 hr))))
    rcases infixCons hinf with hp | hinf2
    · obtain ⟨t, ht⟩ := hp; simp at ht
    rcases infixCons hinf2 with hp | hinf3
    · obtain ⟨t, ht⟩ := hp; simp at ht
    rcases infixCons hinf3 with hp | hinf4
    · obtain ⟨t, ht⟩ := hp; simp at ht
    exact ih hrest_no hinf4
  | case2 a rest h ih =>
    intro hno hinf
    rw [replaceNLlb.eq_2 a rest h] at hinf
    have hrest_no : ¬ ([10, 10, 60, 108, 98] <:+: rest) := fun hr =>
      hno (infixExt a hr)
    rcases infixCons hinf with hp | hinf2
    · obtain ⟨t, ht⟩ := hp
      simp only [List.cons_append, List.nil_append, List.cons.injEq] at ht
      obtain ⟨ha, hrest⟩ := ht
      rcases span3 rest ⟨t, by simp [← hrest]⟩ with h3 | h4
      · obtain ⟨t3, ht3⟩ := h3
        exact h t3 ha.symm (by simp [← ht3])
      · obtain ⟨t4, ht4⟩ := h4
        exact hno ⟨[], t4, by rw [← ha]; simp [← ht4]⟩
    · exact ih hrest_no hinf2
  | case3 =>
    intro _ hinf
    obtain ⟨u, v, huv⟩ := hinf
    simp [replaceNLlb] at huv

/-- An input with no occurrence of `\n<lb` is a fixed point of
`replaceNLlb`. -/
theorem noNL_fixed : ∀ s : List Nat, ¬ ([10, 60, 108, 98] <:+: s) →
    replaceNLlb s = s := by
  intro s
  induction s using replaceNLlb.induct with
  | case1 rest ih =>
    intro hno
    exact absurd ⟨[], rest, by simp⟩ hno
  | case2 a rest h ih =>
    intro hno
    rw [replaceNLlb.eq_2 a rest h, ih (fun hr => hno (infixExt a hr))]
  | case3 =>
    intro _
    rfl

/-- Content nodes contribute no page-break data. -/
theorem filterMap_pbData_content (xs : List Node) :
    (xs.map DivItem.content).filterMap pbData = [] := by
  induction xs with
  | nil => rfl
  | cons a t ih => simp [pbData, ih]

/-- Content nodes are not page-breaks. -/
theorem filter_isPb_content (xs : List Node) :
    (xs.map DivItem.content).filter isPb = [] := by
  induction xs with
  | nil => rfl
  | cons a t ih => simp [isPb, ih]

/-- One page's div children carry exactly one page-break, with the three
attributes of source lines 137-138. -/
theorem divPageItems_pbData (root : List Node) (n : Nat) :
    (divPageItems root n).filterMap pbData
      = [(s!"#facs_{n}", toString n, s!"img_00{n}")] := by
  unfold divPageItems
  split <;> simp [pbFor, pbData, filterMap_pbData_content]

/-- One page's div children contain exactly one page-break element. -/
theorem divPageItems_filter_isPb (root : List Node) (n : Nat) :
    (divPageItems root n).filter isPb = [pbFor n] := by
  unfold divPageItems
  split <;> simp [isPb, pbFor, filter_isPb_content]

/-- Page-break data of an assembled div, page list generalized. -/
theorem flat_pbData (root : List Node) : ∀ l : List Nat,
    (l.flatMap (divPageItems root)).filterMap pbData
      = l.map (fun n => (s!"#facs_{n}", toString n, s!"img_00{n}")) := by
  intro l
  induction l with
  | nil => rfl
  | cons a t ih => simp [List.flatMap_cons, List.filterMap_append, divPageItems_pbData, ih]

/-- Page-break count of an assembled div, page list generalized. -/
theorem flat_pb_count (root : List Node) : ∀ l : List Nat,
    ((l.flatMap (divPageItems root)).filter isPb).length = l.length := by
  intro l
  induction l with
  | nil => rfl
  | cons a t ih => simp [List.flatMap_cons, List.filter_append, divPageItems_filter_isPb, ih]

/-- Appending two strings concatenates their character data. -/
theorem strDataAppend (a b : String) : (a ++ b).data = a.data ++ b.data := rfl

/-- Converting a string to a string is the identity. -/
theorem toStringStr (s : String) : toString s = s := rfl

/-- The empty string has no characters. -/
theorem emptyStrData : ("" : String).data = [] := rfl

/-- Strings with equal character data are equal. -/
theorem strEqOfData {a b : String} (h : a.data = b.data) : a = b := by
  cases a with
  | mk A =>
    cases b with
    | mk B => exact congrArg String.mk (by simpa using h)

/-! ## Claims -/

/-- Claim C1: for every page number, if at least one `table` node with
facs `#facs_<n>_t1` exists in the source tree, then only those table
nodes follow that page's page-break (in particular every content node
after it is such a table, so no `ab` node of the page is extracted);
the `ab` nodes whose facs contains `#facs_<n>_` are appended exactly
when no such table exists. -/
theorem c1_table_suppresses_text (root : List Node) (n : Nat) :
    (current_table_elements root n ≠ [] →
      divPageItems root n = pbFor n :: (current_table_elements root n).map DivItem.content ∧
      ∀ nd : Node, DivItem.content nd ∈ divPageItems root n →
        nd.tag = "table" ∧ nd.facs = s!"#facs_{n}_t1") ∧
    (current_table_elements root n = [] →
      divPageItems root n = pbFor n :: (text_elements root n).map DivItem.content) := by
  constructor
  · intro h
    refine ⟨by simp [divPageItems, h], ?_⟩
    intro nd hmem
    rw [divPageItems, if_pos h] at hmem
    rcases List.mem_cons.mp hmem with hpb | hmem
    · simp [pbFor] at hpb
    · rw [List.mem_map] at hmem
      obtain ⟨x, hx, hxeq⟩ := hmem
      obtain rfl : x = nd := by simpa using hxeq
      rw [current_table_elements, List.mem_filter] at hx
      simpa using hx.2
  · intro h
    simp [divPageItems, h]

/-- Claim C1 witness: a page with both a table and an `ab` block keeps
only the table after its page-break. -/
theorem c1_witness :
    current_table_elements [⟨"table", "#facs_81_t1", ""⟩, ⟨"ab", "#facs_81_1", ""⟩] 81 ≠ [] ∧
    divPageItems [⟨"table", "#facs_81_t1", ""⟩, ⟨"ab", "#facs_81_1", ""⟩] 81
      = pbFor 81 :: (current_table_elements
          [⟨"table", "#facs_81_t1", ""⟩, ⟨"ab", "#facs_81_1", ""⟩] 81).map DivItem.content :=
  ⟨by decide,
    ((c1_table_suppresses_text [⟨"table", "#facs_81_t1", ""⟩, ⟨"ab", "#facs_81_1", ""⟩] 81).1
      (by decide)).1⟩

/-- Claim C2: for a range with `a ≤ b` the assembled div contains
exactly `b - a` page-breaks, in ascending page order, where page `n`
carries facs `#facs_<n>`, the decimal string of `n`, and xml:id
`img_00<n>`; a page matching no table and no `ab` block contributes its
page-break with no content node following it. -/
theorem c2_pagebreak_sequence (root : List Node) (a b : Nat) (_h : a ≤ b) :
    (buildDiv root a b).filterMap pbData
        = (List.range' a (b - a)).map (fun n => (s!"#facs_{n}", toString n, s!"img_00{n}")) ∧
    ((buildDiv root a b).filter isPb).length = b - a ∧
    (∀ n, n ∈ List.range' a (b - a) → current_table_elements root n = [] →
      text_elements root n = [] → divPageItems root n = [pbFor n]) := by
  refine ⟨flat_pbData root _, ?_, ?_⟩
  · rw [buildDiv, flat_pb_count, List.length_range']
  · intro n _ ht hab
    simp [divPageItems, ht, hab]

/-- Claim C2 witness: range `[81, 83)` over an empty source yields the
two page-breaks for pages 81 and 82 with their literal attributes. -/
theorem c2_witness :
    (81 : Nat) ≤ 83 ∧
    (buildDiv [] 81 83).filterMap pbData
      = [("#facs_81", "81", "img_0081"), ("#facs_82", "82", "img_0082")] :=
  ⟨by decide, ((c2_pagebreak_sequence [] 81 83 (by decide)).1).trans (by decide)⟩

/-- Claim C3 counterexample: the byte sequence `>\n<lb ` (62, 10, 60,
108, 98, 32) is not left intact by the fixup — its line break is
removed like any other line break before `<lb`. -/
theorem c3_counterexample :
    clean_transformed_xml [62, 10, 60, 108, 98, 32] ≠ [62, 10, 60, 108, 98, 32] := by
  decide

/-- Claim C3 (amended): the fixup removes any line break immediately
preceding a `<lb` tag, including one that follows the closing `>` of a
preceding element — the first `replace` call rewrites `>\n<lb ` to
itself and therefore preserves nothing, so the whole fixup equals the
second `replace` call, and `>\n<lb ` becomes `><lb `. -/
theorem c3_amended_fixup :
    (∀ s : List Nat, clean_transformed_xml s = replaceNLlb s) ∧
    clean_transformed_xml [62, 10, 60, 108, 98, 32] = [62, 60, 108, 98, 32] :=
  ⟨clean_eq_replaceNLlb, by decide⟩

/-- Claim C4 counterexample: on the byte sequence `\n\n<lb` (10, 10,
60, 108, 98) the fixup is not idempotent — the first pass yields
`\n<lb`, which the second pass flattens again. -/
theorem c4_counterexample :
    clean_transformed_xml (clean_transformed_xml [10, 10, 60, 108, 98]) ≠
      clean_transformed_xml [10, 10, 60, 108, 98] := by
  decide

/-- Claim C4 (amended): the line-break fixup is idempotent on every
input byte string that does not contain the byte sequence `\n\n<lb`
(10, 10, 60, 108, 98); two consecutive line breaks before a `<lb` tag
are the only source of non-idempotence. -/
theorem c4_amended_idempotent (s : List Nat) (h : ¬ ([10, 10, 60, 108, 98] <:+: s)) :
    clean_transformed_xml (clean_transformed_xml s) = clean_transformed_xml s := by
  rw [clean_eq_replaceNLlb, clean_eq_replaceNLlb,
    noNL_fixed (replaceNLlb s) (noNLNL_noNL s h)]

/-- Claim C4 witness: the fixup is idempotent on `>\n<lb `, which
contains no `\n\n<lb`. -/
theorem c4_witness :
    ¬ ([10, 10, 60, 108, 98] <:+: [62, 10, 60, 108, 98, 32]) ∧
    clean_transformed_xml (clean_transformed_xml [62, 10, 60, 108, 98, 32])
      = clean_transformed_xml [62, 10, 60, 108, 98, 32] :=
  ⟨by decide, c4_amended_idempotent [62, 10, 60, 108, 98, 32] (by decide)⟩

/-- Claim C5: the intermediate output path is
`output/{year}_{start}-{stop-1}_before.xml` for a range of more than one
page and `output/{year}_{start}_before.xml` for exactly one page, the
final path uses three-digit zero-padded bounds, and range `[81, 89)`
yields `output/1758_81-88_before.xml` and `output/1758_081-088.xml`. -/
theorem c5_output_naming (year : String) (start stop : Nat) :
    (stop - start > 1 →
      intermediatePath year start stop = s!"output/{year}_{start}-{stop - 1}_before.xml" ∧
      finalPath year start stop = s!"output/{year}_{pad3 start}-{pad3 (stop - 1)}.xml") ∧
    (stop - start = 1 →
      intermediatePath year start stop = s!"output/{year}_{start}_before.xml" ∧
      finalPath year start stop = s!"output/{year}_{pad3 start}.xml") ∧
    intermediatePath "1758" 81 89 = "output/1758_81-88_before.xml" ∧
    finalPath "1758" 81 89 = "output/1758_081-088.xml" := by
  refine ⟨?_, ?_, by decide, by decide⟩
  · intro h
    constructor
    · rw [intermediatePath, range_str, if_pos h]
      apply strEqOfData
      simp [toStringStr, strDataAppend, emptyStrData]
    · rw [finalPath, formatted_range_str, if_pos h]
      apply strEqOfData
      simp [toStringStr, strDataAppend, emptyStrData]
  · intro h
    have h2 : ¬ (stop - start > 1) := by omega
    constructor
    · rw [intermediatePath, range_str, if_neg h2]
      apply strEqOfData
      simp [toStringStr, strDataAppend, emptyStrData]
    · rw [finalPath, formatted_range_str, if_neg h2]

/-- Claim C5 witness: the range `[81, 89)` has more than one page, and
the two paths take their documented concrete forms. -/
theorem c5_witness :
    (89 : Nat) - 81 > 1 ∧
    intermediatePath "1758" 81 89 = "output/1758_81-88_before.xml" ∧
    finalPath "1758" 81 89 = "output/1758_081-088.xml" :=
  ⟨by decide,
    (((c5_output_naming "1758" 81 89).1 (by decide)).1).trans (by decide),
    (((c5_output_naming "1758" 81 89).1 (by decide)).2).trans (by decide)⟩

/-- Claim C6 counterexample: with the final file already written, a
failing `os.remove` terminates the run with an uncaught exception —
deletion failure is fatal, and no warning about it is ever printed
(`Event` has no such warning because the source has no such print). -/
theorem c6_counterexample :
    (mainRun ⟨"export_files/file.xml", "1758", 81, 89, "xslt/test-stylesheet.xsl"⟩
        ⟨.ok [], fun _ => false, none, some "Permission denied"⟩).uncaught ≠ none := by
  decide

/-- Claim C6 (amended): `os.remove` has no handler, so a deletion
failure of the intermediate file escapes as an uncaught `OSError`
terminating the run, with no warning; the final output, written before
the deletion attempt, is unaffected — the trace differs from the fully
successful run only by the missing remove event. -/
theorem c6_amended_remove_failure (cfg : Config) (env : Env) (root : List Node) (m : String)
    (h1 : env.parseResult = .ok root) (h2 : env.xsltRaises = none)
    (h3 : env.removeRaises = some m) :
    (mainRun cfg env).uncaught = some (.oserror m) ∧
    Event.writeFile (finalPath cfg.year_of_volume cfg.start cfg.stop) ∈ (mainRun cfg env).events ∧
    (mainRun cfg env).events ++
        [Event.removeFile (intermediatePath cfg.year_of_volume cfg.start cfg.stop)]
      = (mainRun cfg { env with removeRaises := none }).events := by
  simp [mainRun, parse_xml, h1, h2, h3]

/-- Claim C6 witness: the amended behaviour at the script's own
configuration with a remove failure of message `Permission denied`. -/
theorem c6_witness :
    (mainRun ⟨"export_files/file.xml", "1758", 81, 89, "xslt/test-stylesheet.xsl"⟩
        ⟨.ok [], fun _ => false, none, some "Permission denied"⟩).uncaught
      = some (.oserror "Permission denied") ∧
    Event.writeFile (finalPath "1758" 81 89)
      ∈ (mainRun ⟨"export_files/file.xml", "1758", 81, 89, "xslt/test-stylesheet.xsl"⟩
          ⟨.ok [], fun _ => false, none, some "Permission denied"⟩).events ∧
    (mainRun ⟨"export_files/file.xml", "1758", 81, 89, "xslt/test-stylesheet.xsl"⟩
        ⟨.ok [], fun _ => false, none, some "Permission denied"⟩).events ++
        [Event.removeFile (intermediatePath "1758" 81 89)]
      = (mainRun ⟨"export_files/file.xml", "1758", 81, 89, "xslt/test-stylesheet.xsl"⟩
          ⟨.ok [], fun _ => false, none, none⟩).events :=
  c6_amended_remove_failure
    ⟨"export_files/file.xml", "1758", 81, 89, "xslt/test-stylesheet.xsl"⟩
    ⟨.ok [], fun _ => false, none, some "Permission denied"⟩ [] "Permission denied" rfl rfl rfl

/-- Claim C7 counterexample: when the final output path already exists,
the final write happens with no preceding warning — only the
intermediate write (via `save_xml_to_file`) checks and warns. -/
theorem c7_counterexample :
    ((mainRun ⟨"export_files/file.xml", "1758", 81, 89, "xslt/test-stylesheet.xsl"⟩
        ⟨.ok [], fun _ => true, none, none⟩).events.contains
      (Event.warnOverwrite (finalPath "1758" 81 89)) = false) ∧
    ((mainRun ⟨"export_files/file.xml", "1758", 81, 89, "xslt/test-stylesheet.xsl"⟩
        ⟨.ok [], fun _ => true, none, none⟩).events.contains
      (Event.writeFile (finalPath "1758" 81 89)) = true) := by
  constructor
  · decide
  · decide

/-- Claim C7 (amended): only the intermediate write is guarded —
`save_xml_to_file` warns before overwriting when its target exists,
while the final write at lines 178-179 proceeds unconditionally with no
existence check and no warning, as the complete successful-run trace
shows. -/
theorem c7_amended_overwrite_warning (cfg : Config) (env : Env) (root : List Node)
    (h1 : env.parseResult = .ok root) (h2 : env.xsltRaises = none)
    (h3 : env.removeRaises = none) :
    (mainRun cfg env).events
      = (if env.fileExists (intermediatePath cfg.year_of_volume cfg.start cfg.stop) then
          [Event.warnOverwrite (intermediatePath cfg.year_of_volume cfg.start cfg.stop)]
        else []) ++
        [Event.writeFile (intermediatePath cfg.year_of_volume cfg.start cfg.stop),
         Event.printSaved (intermediatePath cfg.year_of_volume cfg.start cfg.stop),
         Event.writeFile (finalPath cfg.year_of_volume cfg.start cfg.stop),
         Event.printTransformed (finalPath cfg.year_of_volume cfg.start cfg.stop),
         Event.removeFile (intermediatePath cfg.year_of_volume cfg.start cfg.stop)] := by
  simp [mainRun, parse_xml, h1, h2, h3]

/-- Claim C7 witness: the amended trace at the script's configuration
when both output paths already exist on disk. -/
theorem c7_witness :
    (mainRun ⟨"export_files/file.xml", "1758", 81, 89, "xslt/test-stylesheet.xsl"⟩
        ⟨.ok [], fun _ => true, none, none⟩).events
      = [Event.warnOverwrite (intermediatePath "1758" 81 89),
         Event.writeFile (intermediatePath "1758" 81 89),
         Event.printSaved (intermediatePath "1758" 81 89),
         Event.writeFile (finalPath "1758" 81 89),
         Event.printTransformed (finalPath "1758" 81 89),
         Event.removeFile (intermediatePath "1758" 81 89)] :=
  (c7_amended_overwrite_warning
    ⟨"export_files/file.xml", "1758", 81, 89, "xslt/test-stylesheet.xsl"⟩
    ⟨.ok [], fun _ => true, none, none⟩ [] rfl rfl rfl).trans (by decide)

/-- Claim C8: when reading the input fails with an `IOError`, the error
is printed, `parse_xml` yields no document, and the run ends at the
`exit()` call with only that print — in particular no file is written. -/
theorem c8_read_failure_aborts (cfg : Config) (env : Env) (msg : String)
    (h : env.parseResult = .ioError msg) :
    (parse_xml env.parseResult cfg.file_path).2 = .ok none ∧
    mainRun cfg env = ⟨[Event.printError cfg.file_path msg], none⟩ ∧
    ∀ p : String, Event.writeFile p ∉ (mainRun cfg env).events := by
  refine ⟨by simp [parse_xml, h], by simp [mainRun, parse_xml, h], ?_⟩
  intro p hmem
  simp [mainRun, parse_xml, h] at hmem

/-- Claim C8 witness: a failing read of the script's input path
produces exactly the error print and a clean exit. -/
theorem c8_witness :
    (parse_xml (ParseResult.ioError "No such file or directory") "export_files/file.xml").2
      = .ok none ∧
    mainRun ⟨"export_files/file.xml", "1758", 81, 89, "xslt/test-stylesheet.xsl"⟩
        ⟨.ioError "No such file or directory", fun _ => false, none, none⟩
      = ⟨[Event.printError "export_files/file.xml" "No such file or directory"], none⟩ :=
  ⟨(c8_read_failure_aborts
      ⟨"export_files/file.xml", "1758", 81, 89, "xslt/test-stylesheet.xsl"⟩
      ⟨.ioError "No such file or directory", fun _ => false, none, none⟩
      "No such file or directory" rfl).1,
   (c8_read_failure_aborts
      ⟨"export_files/file.xml", "1758", 81, 89, "xslt/test-stylesheet.xsl"⟩
      ⟨.ioError "No such file or directory", fun _ => false, none, none⟩
      "No such file or directory" rfl).2.1⟩

/-- Claim C9: `parse_xml` returns `None` exactly when an `IOError` was
raised while reading; a well-read but malformed file makes the parse
failure propagate as an uncaught `XMLSyntaxError` instead of `None`. -/
theorem c9_parse_xml_error_paths (pr : ParseResult) (fp : String) :
    ((parse_xml pr fp).2 = .ok none ↔ ∃ m, pr = .ioError m) ∧
    (∀ m, pr = .parseError m →
      (parse_xml pr fp).2 = .error (.xmlSyntaxError m)) := by
  constructor
  · constructor
    · intro h
      cases pr <;> simp_all [parse_xml]
    · rintro ⟨m, rfl⟩
      simp [parse_xml]
  · rintro m rfl
    simp [parse_xml]

/-- Claim C9 witness: the two error paths of `parse_xml` at concrete
messages. -/
theorem c9_witness :
    (parse_xml (ParseResult.ioError "boom") "export_files/file.xml").2 = .ok none ∧
    (parse_xml (ParseResult.parseError "not well-formed") "export_files/file.xml").2
      = .error (.xmlSyntaxError "not well-formed") :=
  ⟨(c9_parse_xml_error_paths (ParseResult.ioError "boom") "export_files/file.xml").1.mpr
      ⟨"boom", rfl⟩,
   (c9_parse_xml_error_paths (ParseResult.parseError "not well-formed")
      "export_files/file.xml").2 "not well-formed" rfl⟩

/-- Claim C10: the empty range `[s, s)` raises no error — the run with
a successfully parsed input completes with no uncaught exception — and
assembles an empty facsimile and a div with zero page-breaks, and the
intermediate file name takes the single-page form
`output/{year}_{s}_before.xml`, identical to the name for `[s, s+1)`. -/
theorem c10_empty_range (root : List Node) (year : String) (s : Nat) (fp xp : String) :
    extract_surface_elements root s s = [] ∧
    buildDiv root s s = [] ∧
    intermediatePath year s s = s!"output/{year}_{s}_before.xml" ∧
    intermediatePath year s s = intermediatePath year s (s + 1) ∧
    (mainRun ⟨fp, year, s, s, xp⟩ ⟨.ok root, fun _ => false, none, none⟩).uncaught = none := by
  refine ⟨?_, ?_, ?_, ?_, ?_⟩
  · simp [extract_surface_elements, Nat.sub_self]
  · simp [buildDiv, Nat.sub_self]
  · rw [intermediatePath, range_str, if_neg (by omega : ¬ (s - s > 1))]
    apply strEqOfData
    simp [toStringStr, strDataAppend, emptyStrData]
  · rw [intermediatePath, intermediatePath, range_str, range_str,
      if_neg (by omega : ¬ (s - s > 1)), if_neg (by omega : ¬ (s + 1 - s > 1))]
  · simp [mainRun, parse_xml]

end PageSplitter
